import Mathlib

/-!
Verification of the core logic of the `bigquery-ai-customer-insight-engine`
repository, shallowly embedded in Lean.

Embedded components:
* the decimal formatting used by both synthetic feedback generators
  (Python format specifier `:03d`);
* the rule-based labeler encoded in the SQL text of
  `process_feedback_with_ai` in
  `Smart_Customer_Insight_Engine_Implementation.py` (sentiment, urgency and
  category CASE expressions over `REGEXP_CONTAINS(UPPER(raw_text), ...)`,
  where each regex is a plain alternation of literal keywords, i.e. a
  "contains some keyword as a substring" test on the upper-cased text);
* the synthetic feedback generators `generate_sample_feedback_data` of
  `Smart_Customer_Insight_Engine_Implementation.py` (the "implementation
  variant") and of `demo_only.py` (the "demo variant").

Randomness is modelled by an explicit oracle: each loop iteration of a
generator consumes one `Draw` record whose fields carry exactly the values
the Python code obtains from numpy, constrained to the support of the
corresponding numpy call (`np.random.randint(lo, hi)` yields an integer in
the half-open range `[lo, hi)`; `np.random.choice(pool)` yields an index
into `pool`; `np.random.random()` yields a number in `[0, 1)`).
Timestamps are measured in integer hours relative to an arbitrary `now`.
-/

namespace InsightEngine

/-! ### Decimal formatting (`f-string` specifier `:03d`) -/

/-- One decimal digit as a character. -/
def digitChar : ℕ → Char
  | 0 => '0' | 1 => '1' | 2 => '2' | 3 => '3' | 4 => '4'
  | 5 => '5' | 6 => '6' | 7 => '7' | 8 => '8' | 9 => '9'
  | _ => '*'

/-- Inverse of `digitChar` on decimal digits. -/
def charDigit : Char → ℕ
  | '0' => 0 | '1' => 1 | '2' => 2 | '3' => 3 | '4' => 4
  | '5' => 5 | '6' => 6 | '7' => 7 | '8' => 8 | '9' => 9
  | _ => 0

/-- Little-endian decimal digits, computed structurally on a fuel argument
so that the kernel can evaluate it; with `fuel ≥ n` it agrees with
`Nat.digits 10 n` (proved below). -/
def digitsF : ℕ → ℕ → List ℕ
  | 0, _ => []
  | _ + 1, 0 => []
  | fuel + 1, n + 1 => (n + 1) % 10 :: digitsF fuel ((n + 1) / 10)

/-- Little-endian decimal digits of `n`. -/
def natDigits (n : ℕ) : List ℕ := digitsF n n

theorem digitsF_eq_digits : ∀ fuel n, n ≤ fuel → digitsF fuel n = Nat.digits 10 n := by
  intro fuel
  induction fuel with
  | zero =>
    intro n hn
    interval_cases n
    simp [digitsF]
  | succ fuel ih =>
    intro n hn
    match n with
    | 0 => simp [digitsF]
    | n + 1 =>
      rw [digitsF, Nat.digits_def' (by norm_num : 1 < 10) (Nat.succ_pos n),
        ih ((n + 1) / 10) ?_]
      have := Nat.div_lt_self (Nat.succ_pos n) (by norm_num : 1 < 10)
      omega

theorem natDigits_eq (n : ℕ) : natDigits n = Nat.digits 10 n :=
  digitsF_eq_digits n n le_rfl

/-- The decimal digit string of `n`, zero padded on the left to a minimum
width of 3: the Lean model of the Python format specifier `:03d`. -/
def pad3Chars (n : ℕ) : List Char :=
  let ds := ((natDigits n).map digitChar).reverse
  List.replicate (3 - ds.length) '0' ++ ds

/-- `pad3 n` is the string Python renders for `f"{n:03d}"`. -/
def pad3 (n : ℕ) : String := ⟨pad3Chars n⟩

/-- Read a zero-padded decimal digit string back as a number. -/
def unpad (cs : List Char) : ℕ := Nat.ofDigits 10 ((cs.map charDigit).reverse)

theorem charDigit_digitChar : ∀ d < 10, charDigit (digitChar d) = d := by decide

theorem ofDigits_replicate_zero (k : ℕ) :
    Nat.ofDigits 10 (List.replicate k 0) = 0 := by
  induction k with
  | zero => simp
  | succ k ih => simp [List.replicate_succ, Nat.ofDigits_cons, ih]

theorem unpad_pad3Chars (n : ℕ) : unpad (pad3Chars n) = n := by
  have hdig : ((Nat.digits 10 n).map digitChar).map charDigit = Nat.digits 10 n := by
    rw [List.map_map]
    have : ∀ d ∈ Nat.digits 10 n, (charDigit ∘ digitChar) d = d := by
      intro d hd
      exact charDigit_digitChar d (Nat.digits_lt_base (by norm_num) hd)
    simpa using List.map_congr_left this
  unfold unpad pad3Chars
  simp only [natDigits_eq, List.map_append, List.map_replicate, List.map_reverse,
    List.reverse_append, List.reverse_reverse, List.reverse_replicate]
  rw [hdig]
  show Nat.ofDigits 10 (Nat.digits 10 n ++ List.replicate _ (charDigit '0')) = n
  rw [show charDigit '0' = 0 from rfl, Nat.ofDigits_append,
    ofDigits_replicate_zero, Nat.ofDigits_digits]
  simp

theorem pad3Chars_inj {m n : ℕ} (h : pad3Chars m = pad3Chars n) : m = n := by
  have := congrArg unpad h
  rwa [unpad_pad3Chars, unpad_pad3Chars] at this

/-! ### The rule-based labeler

Translated from the CASE expressions of the stored procedure text built in
`process_feedback_with_ai` (lines 258-282 of
`Smart_Customer_Insight_Engine_Implementation.py`).  Each
`REGEXP_CONTAINS(UPPER(f.raw_text), r'(W1|W2|...)')` is an alternation of
keyword literals, i.e. "some keyword occurs as a substring of the
upper-cased text". -/

/-- Boolean list-prefix test. -/
def isPrefixB : List Char → List Char → Bool
  | [], _ => true
  | _ :: _, [] => false
  | a :: as, b :: bs => a == b && isPrefixB as bs

/-- Boolean substring (contiguous sublist) test: does `n` occur inside the
second list? -/
def isInfixB (n : List Char) : List Char → Bool
  | [] => n.isEmpty
  | c :: t => isPrefixB n (c :: t) || isInfixB n t

/-- `UPPER` of SQL / upper-casing of the raw text, character by character. -/
def upperChars (s : String) : List Char := s.data.map Char.toUpper

/-- Does the (already upper-cased) text contain the keyword as a substring? -/
def containsKw (t : List Char) (kw : String) : Bool := isInfixB kw.data t

/-- `REGEXP_CONTAINS(t, r'(W1|...|Wn)')` for an alternation of literals. -/
def containsAny (t : List Char) (kws : List String) : Bool :=
  kws.any (containsKw t)

def posWords : List String := ["LOVE", "GREAT", "EXCELLENT", "AMAZING"]
def negWords : List String := ["HATE", "TERRIBLE", "AWFUL", "WORST"]
def problemWords : List String := ["PROBLEM", "ISSUE", "ERROR", "BROKEN", "CRASH"]
def mildPosWords : List String := ["GOOD", "NICE", "HELPFUL"]
def criticalWords : List String :=
  ["URGENT", "ASAP", "CRITICAL", "EMERGENCY", "IMMEDIATELY"]
def highWords : List String := ["IMPORTANT", "SOON", "QUICKLY"]
def mediumWords : List String := ["ISSUE", "PROBLEM", "ERROR"]
def technicalWords : List String := ["CRASH", "ERROR", "LOGIN", "BUG", "SLOW"]
def billingWords : List String :=
  ["CHARGE", "BILL", "PAYMENT", "REFUND", "SUBSCRIPTION"]
def shippingWords : List String := ["SHIP", "DELIVERY", "PACKAGE", "ORDER"]
def productWords : List String := ["FEATURE", "PRODUCT", "IMPROVEMENT", "SUGGESTION"]

/-- The sentiment CASE expression. -/
def sentimentScore (s : String) : ℚ :=
  let t := upperChars s
  if containsAny t posWords then 0.8
  else if containsAny t negWords then -0.8
  else if containsAny t problemWords then -0.4
  else if containsAny t mildPosWords then 0.3
  else 0.0

/-- The urgency CASE expression. -/
def urgencyLevel (s : String) : String :=
  let t := upperChars s
  if containsAny t criticalWords then "critical"
  else if containsAny t highWords then "high"
  else if containsAny t mediumWords then "medium"
  else "low"

/-- The category CASE expression; the SQL wraps the result in a one-element
array, modelled here by the single element. -/
def categoryGuess (s : String) : String :=
  let t := upperChars s
  if containsAny t technicalWords then "technical"
  else if containsAny t billingWords then "billing"
  else if containsAny t shippingWords then "shipping"
  else if containsAny t productWords then "product"
  else "other"

/-- The triple of derived labels (spec: `DerivedLabel`). -/
structure DerivedLabel where
  sentiment_score : ℚ
  urgency_level : String
  category_guess : String
deriving DecidableEq, Repr

/-- The labeler: one row of the SELECT of `ProcessCustomerFeedback`
restricted to the three rule-derived columns. -/
def label (s : String) : DerivedLabel :=
  ⟨sentimentScore s, urgencyLevel s, categoryGuess s⟩

example : label "URGENT: the app keeps crashing" = ⟨-0.4, "critical", "technical"⟩ := rfl

example : label "" = ⟨0.0, "low", "other"⟩ := rfl

/-! ### Python `str.replace` (replace-all, left to right, non-overlapping)

`replaceAllF` is written with an explicit fuel argument so that it is
structurally recursive and kernel-evaluable; each step consumes at least one
character of the haystack, so `fuel = haystack.length` always suffices
(`replaceAll` below).  After a match the scan resumes after the matched
occurrence, exactly like Python `str.replace`. -/

def replaceAllF : ℕ → List Char → List Char → List Char → List Char
  | 0, _, _, h => h
  | _ + 1, _, _, [] => []
  | fuel + 1, n, r, c :: t =>
    if !n.isEmpty && isPrefixB n (c :: t) then
      r ++ replaceAllF fuel n r ((c :: t).drop n.length)
    else
      c :: replaceAllF fuel n r t

/-- Python `h.replace(n, r)` for a non-empty pattern `n`. -/
def replaceAll (n r h : List Char) : List Char := replaceAllF h.length n r h

theorem replaceAllF_absent (n r : List Char) :
    ∀ (fuel : ℕ) (h : List Char), isInfixB n h = false → replaceAllF fuel n r h = h := by
  intro fuel
  induction fuel with
  | zero => intro h _; rfl
  | succ fuel ih =>
    intro h hinf
    match h with
    | [] => rfl
    | c :: t =>
      rw [isInfixB, Bool.or_eq_false_iff] at hinf
      rw [replaceAllF, hinf.1, Bool.and_false, if_neg (by simp), ih t hinf.2]

/-- If the pattern does not occur in the haystack, `str.replace` is the
identity. -/
theorem replaceAll_absent (n r h : List Char) (hinf : isInfixB n h = false) :
    replaceAll n r h = h :=
  replaceAllF_absent n r h.length h hinf

/-! ### Shared value pools (transcribed from the source) -/

def actions : List String :=
  ["upload files", "sync data", "export reports", "share links", "update profile"]

def features : List String :=
  ["dashboard", "mobile app", "reporting", "integrations", "API", "search"]

def suggestions : List String :=
  ["bulk operations", "better filters", "dark mode", "mobile optimization"]

def channels : List String := ["email", "chat", "support_ticket", "review", "social"]

def priorities : List String := ["low", "medium", "high"]

/-- `urgency_words` of the implementation variant (5 entries). -/
def implUrgencyWords : List String :=
  ["URGENT", "ASAP", "immediately", "critical", "emergency"]

/-- `urgency_words` of the demo variant (4 entries; no `emergency`). -/
def demoUrgencyWords : List String := ["URGENT", "ASAP", "immediately", "critical"]

/-- The dict keys of `feedback_templates`, in insertion order (identical in
both variants). -/
def catKey : Fin 4 → String
  | 0 => "technical"
  | 1 => "billing"
  | 2 => "product"
  | 3 => "shipping"

/-! ### Template pools of the implementation variant -/

def technicalTemplates : List String :=
  ["The app keeps crashing when I try to {action}. This is really frustrating!",
   "I can\x27t access my {feature} after the latest update. Need help ASAP.",
   "The {feature} is not working properly. Getting error messages constantly.",
   "Very slow performance when {action}. Takes forever to load.",
   "Login issues persist. Can\x27t authenticate properly."]

def billingTemplates : List String :=
  ["I was charged twice for my subscription this month. Please refund immediately.",
   "My billing shows incorrect amounts. Need clarification on charges.",
   "Automatic renewal didn\x27t work. Please update my payment method.",
   "Discount code wasn\x27t applied to my order. Can you fix this?",
   "Subscription cancellation didn\x27t go through. Still being charged."]

def productTemplates : List String :=
  ["Love the new {feature}! Makes everything so much easier.",
   "The {feature} could be improved. Here\x27s my suggestion: {suggestion}",
   "Missing feature: {suggestion}. Would be great to have this.",
   "Great product overall but {feature} needs work.",
   "Excellent customer service and product quality!"]

def shippingTemplates : List String :=
  ["My order is late. Expected delivery was {date}. Where is it?",
   "Package arrived damaged. Need replacement urgently.",
   "Wrong item shipped. Ordered {item} but received {wrong_item}.",
   "Fast shipping! Arrived earlier than expected. Very pleased.",
   "Tracking information isn\x27t updating. Is my package lost?"]

/-- `feedback_templates[category]` of the implementation variant. -/
def implPool : Fin 4 → List String
  | 0 => technicalTemplates
  | 1 => billingTemplates
  | 2 => productTemplates
  | 3 => shippingTemplates

/-! ### Template pools of the demo variant -/

def demoTechnicalTemplates : List String :=
  ["The app keeps crashing when I try to upload files. This is really frustrating!",
   "I can\x27t access my dashboard after the latest update. Need help ASAP.",
   "Very slow performance when exporting reports. Takes forever to load.",
   "Login issues persist. Can\x27t authenticate properly.",
   "Getting error messages constantly when using the search feature."]

def demoBillingTemplates : List String :=
  ["I was charged twice for my subscription this month. Please refund immediately.",
   "My billing shows incorrect amounts. Need clarification on charges.",
   "Automatic renewal didn\x27t work. Please update my payment method.",
   "Discount code wasn\x27t applied to my order. Can you fix this?"]

def demoProductTemplates : List String :=
  ["Love the new dashboard! Makes everything so much easier.",
   "Great product overall but mobile app needs work.",
   "Missing feature: bulk operations. Would be great to have this.",
   "Excellent customer service and product quality!"]

def demoShippingTemplates : List String :=
  ["My order is late. Expected delivery was yesterday. Where is it?",
   "Package arrived damaged. Need replacement urgently.",
   "Fast shipping! Arrived earlier than expected. Very pleased."]

/-- `feedback_templates[category]` of the demo variant. -/
def demoPool : Fin 4 → List String
  | 0 => demoTechnicalTemplates
  | 1 => demoBillingTemplates
  | 2 => demoProductTemplates
  | 3 => demoShippingTemplates

/-! ### The random draws consumed by one loop iteration

Each field mirrors one numpy call of the corresponding iteration of
`generate_sample_feedback_data`, constrained to that call's support:
`np.random.randint(lo, hi)` is an integer in `[lo, hi)`,
`np.random.choice(pool)` is an index into `pool`, and `np.random.random()`
is a number in `[0, 1)` (modelled as an exact rational). -/

structure ImplDraw where
  catIdx : Fin 4
  tmplIdx : Fin (implPool catIdx).length
  chanIdx : Fin channels.length
  actIdx : Fin actions.length
  featIdx : Fin features.length
  suggIdx : Fin suggestions.length
  urgRand : ℚ
  urgRand_nonneg : 0 ≤ urgRand
  urgRand_lt_one : urgRand < 1
  urgIdx : Fin implUrgencyWords.length
  custN : ℕ
  custN_lo : 1 ≤ custN
  custN_hi : custN < 50
  dayN : ℕ
  dayN_hi : dayN < 30
  hourN : ℕ
  hourN_hi : hourN < 24
  ratingN : ℕ
  ratingN_lo : 1 ≤ ratingN
  ratingN_hi : ratingN < 6
  prioIdx : Fin priorities.length

structure DemoDraw where
  catIdx : Fin 4
  tmplIdx : Fin (demoPool catIdx).length
  chanIdx : Fin channels.length
  urgRand : ℚ
  urgRand_nonneg : 0 ≤ urgRand
  urgRand_lt_one : urgRand < 1
  urgIdx : Fin demoUrgencyWords.length
  custN : ℕ
  custN_lo : 1 ≤ custN
  custN_hi : custN < 50
  dayN : ℕ
  dayN_hi : dayN < 30

/-! ### Records and the generators -/

/-- The value stored (JSON-serialised in the source) in the `metadata`
column of the implementation variant. -/
structure ImplMetadata where
  category : String
  rating : Option ℕ
  priority : String
deriving DecidableEq, Repr

/-- One row of the implementation variant.  The dict keys, in insertion
order, are `implColumns` below; note `metadata`, not `category`.  Time is
measured in integer hours. -/
structure ImplRecord where
  feedback_id : String
  customer_id : String
  channel : String
  timestamp : ℤ
  raw_text : String
  metadata : ImplMetadata
  processed : Bool
deriving DecidableEq, Repr

/-- One row of the demo variant; here `category` is a top-level column. -/
structure DemoRecord where
  feedback_id : String
  customer_id : String
  channel : String
  timestamp : ℤ
  raw_text : String
  category : String
  processed : Bool
deriving DecidableEq, Repr

/-- Column names of the implementation variant's rows (dict literal key
order, lines 167-180 of the implementation file). -/
def implColumns : List String :=
  ["feedback_id", "customer_id", "channel", "timestamp", "raw_text",
   "metadata", "processed"]

/-- Column names of the demo variant's rows (dict literal key order,
lines 51-59 of `demo_only.py`). -/
def demoColumns : List String :=
  ["feedback_id", "customer_id", "channel", "timestamp", "raw_text",
   "category", "processed"]

/-- Columns named by the specification for the generator's output
(spec section 6, "tabular output sink").  Kept separate from the two lists
above so that the spec's contract can be compared against each variant. -/
def specColumns : List String :=
  ["feedback_id", "customer_id", "channel", "timestamp", "raw_text",
   "category", "processed"]

/-- The template-filling chain of the implementation variant, in source
order: `{action}`, `{feature}`, `{suggestion}`, `{date}`, `{item}`,
`{wrong_item}` (the last three with fixed literals). -/
def pySubst (tmpl a f s : String) : List Char :=
  replaceAll ("{wrong_item}").data ("basic plan").data
    (replaceAll ("{item}").data ("premium plan").data
      (replaceAll ("{date}").data ("yesterday").data
        (replaceAll ("{suggestion}").data s.data
          (replaceAll ("{feature}").data f.data
            (replaceAll ("{action}").data a.data tmpl.data)))))

/-- The filled template before the optional urgency marker. -/
def implBaseText (d : ImplDraw) : List Char :=
  pySubst ((implPool d.catIdx).get d.tmplIdx) (actions.get d.actIdx)
    (features.get d.featIdx) (suggestions.get d.suggIdx)

/-- `np.random.random() < 0.15` gates the urgency marker; `0.15` is the
exact rational `mkRat 15 100`. -/
def urgThreshold : ℚ := mkRat 15 100

/-- `raw_text` of the implementation variant. -/
def implRawText (d : ImplDraw) : List Char :=
  if d.urgRand < urgThreshold then
    (implUrgencyWords.get d.urgIdx).data ++ (": ").data ++ implBaseText d
  else implBaseText d

/-- One row of the implementation variant for loop index `i` (0-based). -/
def implRecord (now : ℤ) (i : ℕ) (d : ImplDraw) : ImplRecord :=
  { feedback_id := "feedback_" ++ pad3 (i + 1)
    customer_id := "customer_" ++ pad3 d.custN
    channel := channels.get d.chanIdx
    timestamp := now - (24 * (d.dayN : ℤ) + (d.hourN : ℤ))
    raw_text := ⟨implRawText d⟩
    metadata :=
      { category := catKey d.catIdx
        rating := if channels.get d.chanIdx = "review" then some d.ratingN else none
        priority := priorities.get d.prioIdx }
    processed := false }

/-- `generate_sample_feedback_data` of the implementation variant: the
Python loop `for i in range(num_samples)` (empty for a negative argument),
consuming one draw per iteration. -/
def implGenerate (count : ℤ) (now : ℤ) (ω : ℕ → ImplDraw) : List ImplRecord :=
  (List.range count.toNat).map (fun i => implRecord now i (ω i))

/-- `raw_text` of the demo variant (no placeholder filling; only the
optional urgency marker). -/
def demoRawText (d : DemoDraw) : List Char :=
  if d.urgRand < urgThreshold then
    (demoUrgencyWords.get d.urgIdx).data ++ (": ").data
      ++ ((demoPool d.catIdx).get d.tmplIdx).data
  else ((demoPool d.catIdx).get d.tmplIdx).data

/-- One row of the demo variant for loop index `i`; the timestamp subtracts
only a day offset. -/
def demoRecord (now : ℤ) (i : ℕ) (d : DemoDraw) : DemoRecord :=
  { feedback_id := "feedback_" ++ pad3 (i + 1)
    customer_id := "customer_" ++ pad3 d.custN
    channel := channels.get d.chanIdx
    timestamp := now - 24 * (d.dayN : ℤ)
    raw_text := ⟨demoRawText d⟩
    category := catKey d.catIdx
    processed := false }

/-- `generate_sample_feedback_data` of `demo_only.py`. -/
def demoGenerate (count : ℤ) (now : ℤ) (ω : ℕ → DemoDraw) : List DemoRecord :=
  (List.range count.toNat).map (fun i => demoRecord now i (ω i))

/-! ### Helper facts -/

/-- "Well-formed text": non-empty and free of the placeholder delimiters
`\x7b` and `\x7d`. -/
def goodText (cs : List Char) : Bool :=
  !cs.isEmpty && cs.all (fun ch => ch != '{' && ch != '}')

set_option maxHeartbeats 4000000 in
/-- Every completely filled implementation template is non-empty and
placeholder-free, whichever template and substitution values the random
draws select.  Absent placeholders are discharged by
`replaceAll_absent`; the substitution values that do occur are
enumerated. -/
theorem pySubst_goodText :
    ∀ (c : Fin 4) (t : Fin (implPool c).length) (a : Fin actions.length)
      (f : Fin features.length) (s : Fin suggestions.length),
      goodText (pySubst ((implPool c).get t) (actions.get a) (features.get f)
        (suggestions.get s)) = true := by
  intro c t a f s
  fin_cases c <;> fin_cases t <;>
    (try simp only [pySubst]) <;>
    (try simp (disch := decide) only [replaceAll_absent]) <;>
    first
      | decide
      | (fin_cases a <;> simp (disch := decide) only [replaceAll_absent] <;> decide)
      | (fin_cases f <;> simp (disch := decide) only [replaceAll_absent] <;> decide)
      | (fin_cases s <;> simp (disch := decide) only [replaceAll_absent] <;> decide)
      | (fin_cases f <;> fin_cases s <;>
          simp (disch := decide) only [replaceAll_absent] <;> decide)

theorem string_data_append (s t : String) : (s ++ t).data = s.data ++ t.data := by
  cases s
  cases t
  rfl

/-- The numeric index encoded in a `feedback_NNN` identifier (the part
after the 9-character prefix, read back as a number). -/
def feedbackIdNum (s : String) : ℕ := unpad (s.data.drop 9)

theorem feedbackIdNum_eq (n : ℕ) : feedbackIdNum ("feedback_" ++ pad3 n) = n := by
  unfold feedbackIdNum
  rw [string_data_append]
  show unpad ((("feedback_").data ++ pad3Chars n).drop ("feedback_").data.length) = n
  rw [List.drop_left]
  exact unpad_pad3Chars n

theorem feedbackId_inj {m n : ℕ}
    (h : "feedback_" ++ pad3 m = "feedback_" ++ pad3 n) : m = n := by
  have := congrArg feedbackIdNum h
  rwa [feedbackIdNum_eq, feedbackIdNum_eq] at this

theorem implGenerate_length (count now : ℤ) (ω : ℕ → ImplDraw) :
    (implGenerate count now ω).length = count.toNat := by
  simp [implGenerate]

theorem demoGenerate_length (count now : ℤ) (δ : ℕ → DemoDraw) :
    (demoGenerate count now δ).length = count.toNat := by
  simp [demoGenerate]

theorem implGenerate_get (count now : ℤ) (ω : ℕ → ImplDraw) (i : ℕ)
    (hi : i < (implGenerate count now ω).length) :
    (implGenerate count now ω).get ⟨i, hi⟩ = implRecord now i (ω i) := by
  simp [implGenerate, List.get_eq_getElem]

theorem demoGenerate_get (count now : ℤ) (δ : ℕ → DemoDraw) (i : ℕ)
    (hi : i < (demoGenerate count now δ).length) :
    (demoGenerate count now δ).get ⟨i, hi⟩ = demoRecord now i (δ i) := by
  simp [demoGenerate, List.get_eq_getElem]

/-- A fixed draw used to instantiate theorems on concrete inputs: category
`technical`, first template/channel/value of each pool, a `random()` result
of `1/2` (so no urgency marker), customer 1, zero offsets. -/
def implDraw0 : ImplDraw where
  catIdx := 0
  tmplIdx := ⟨0, by decide⟩
  chanIdx := ⟨0, by decide⟩
  actIdx := ⟨0, by decide⟩
  featIdx := ⟨0, by decide⟩
  suggIdx := ⟨0, by decide⟩
  urgRand := mkRat 1 2
  urgRand_nonneg := by decide
  urgRand_lt_one := by decide
  urgIdx := ⟨0, by decide⟩
  custN := 1
  custN_lo := le_refl 1
  custN_hi := by decide
  dayN := 0
  dayN_hi := by decide
  hourN := 0
  hourN_hi := by decide
  ratingN := 1
  ratingN_lo := le_refl 1
  ratingN_hi := by decide
  prioIdx := ⟨0, by decide⟩

/-- A fixed demo-variant draw, analogous to `implDraw0`. -/
def demoDraw0 : DemoDraw where
  catIdx := 0
  tmplIdx := ⟨0, by decide⟩
  chanIdx := ⟨0, by decide⟩
  urgRand := mkRat 1 2
  urgRand_nonneg := by decide
  urgRand_lt_one := by decide
  urgIdx := ⟨0, by decide⟩
  custN := 1
  custN_lo := le_refl 1
  custN_hi := by decide
  dayN := 0
  dayN_hi := by decide

/-! ### Claims -/

/-- Claim C1: for every integer `count ≥ 0`, both generators return exactly
`count` records in order; record `i` (0-based) has
`feedback_id = "feedback_" ++ pad3 (i+1)`, hence the identifiers are
pairwise distinct, their encoded indices strictly increase within the
batch, and the first one is `feedback_001`. -/
theorem c1_feedback_ids (count now : ℤ) (hc : 0 ≤ count)
    (ω : ℕ → ImplDraw) (δ : ℕ → DemoDraw) :
    ((implGenerate count now ω).length : ℤ) = count ∧
    ((demoGenerate count now δ).length : ℤ) = count ∧
    (∀ i (hi : i < (implGenerate count now ω).length),
      ((implGenerate count now ω).get ⟨i, hi⟩).feedback_id = "feedback_" ++ pad3 (i + 1)) ∧
    (∀ i (hi : i < (demoGenerate count now δ).length),
      ((demoGenerate count now δ).get ⟨i, hi⟩).feedback_id = "feedback_" ++ pad3 (i + 1)) ∧
    (∀ i j (hi : i < (implGenerate count now ω).length)
      (hj : j < (implGenerate count now ω).length), i < j →
      feedbackIdNum (((implGenerate count now ω).get ⟨i, hi⟩).feedback_id) <
        feedbackIdNum (((implGenerate count now ω).get ⟨j, hj⟩).feedback_id)) ∧
    (∀ i j (hi : i < (implGenerate count now ω).length)
      (hj : j < (implGenerate count now ω).length), i ≠ j →
      ((implGenerate count now ω).get ⟨i, hi⟩).feedback_id ≠
        ((implGenerate count now ω).get ⟨j, hj⟩).feedback_id) ∧
    (∀ i j (hi : i < (demoGenerate count now δ).length)
      (hj : j < (demoGenerate count now δ).length), i ≠ j →
      ((demoGenerate count now δ).get ⟨i, hi⟩).feedback_id ≠
        ((demoGenerate count now δ).get ⟨j, hj⟩).feedback_id) ∧
    (∀ h0 : 0 < (implGenerate count now ω).length,
      ((implGenerate count now ω).get ⟨0, h0⟩).feedback_id = "feedback_001") := by
  refine ⟨?_, ?_, ?_, ?_, ?_, ?_, ?_, ?_⟩
  · rw [implGenerate_length, Int.toNat_of_nonneg hc]
  · rw [demoGenerate_length, Int.toNat_of_nonneg hc]
  · intro i hi
    rw [implGenerate_get]
    rfl
  · intro i hi
    rw [demoGenerate_get]
    rfl
  · intro i j hi hj hij
    rw [implGenerate_get, implGenerate_get]
    show feedbackIdNum ("feedback_" ++ pad3 (i + 1)) <
      feedbackIdNum ("feedback_" ++ pad3 (j + 1))
    rw [feedbackIdNum_eq, feedbackIdNum_eq]
    omega
  · intro i j hi hj hij
    rw [implGenerate_get, implGenerate_get]
    intro h
    have := feedbackId_inj h
    omega
  · intro i j hi hj hij
    rw [demoGenerate_get, demoGenerate_get]
    intro h
    have := feedbackId_inj h
    omega
  · intro h0
    rw [implGenerate_get]
    show "feedback_" ++ pad3 1 = "feedback_001"
    decide

/-- Witness for C1 at `count = 2` with constant draw streams. -/
theorem c1_feedback_ids_witness :
    ((implGenerate 2 0 (fun _ => implDraw0)).length : ℤ) = 2 ∧
    ((implGenerate 2 0 (fun _ => implDraw0)).get ⟨1, by decide⟩).feedback_id =
      "feedback_002" := by
  have h := c1_feedback_ids 2 0 (by decide) (fun _ => implDraw0) (fun _ => demoDraw0)
  refine ⟨h.1, ?_⟩
  rw [h.2.2.1 1 (by decide)]
  decide

/-- Claim C2: on `"URGENT: the app keeps crashing"` the labeler returns
sentiment `-0.4` (the PROBLEM/CRASH rule, reached because the two earlier
sentiment rules do not match; urgency plays no part in sentiment), urgency
`critical`, category `technical`. -/
theorem c2_label_urgent_crash :
    label "URGENT: the app keeps crashing" =
      { sentiment_score := -0.4, urgency_level := "critical",
        category_guess := "technical" } ∧
    containsAny (upperChars "URGENT: the app keeps crashing") posWords = false ∧
    containsAny (upperChars "URGENT: the app keeps crashing") negWords = false ∧
    containsAny (upperChars "URGENT: the app keeps crashing") problemWords = true :=
  ⟨rfl, by decide, by decide, by decide⟩

/-- Claim C3: any text matching both the first (technical) and the second
(billing) category keyword rule is categorised `technical`, never
`billing`: the first matching rule wins. -/
theorem c3_category_first_match (s : String)
    (htech : containsAny (upperChars s) technicalWords = true)
    (hbill : containsAny (upperChars s) billingWords = true) :
    categoryGuess s = "technical" ∧ categoryGuess s ≠ "billing" := by
  have h : categoryGuess s = "technical" := by
    simp [categoryGuess, htech]
  refine ⟨h, ?_⟩
  rw [h]
  decide

/-- Witness for C3: a text containing both `CRASH` and `CHARGE`. -/
theorem c3_category_first_match_witness :
    categoryGuess "The crash caused a double charge" = "technical" ∧
    categoryGuess "The crash caused a double charge" ≠ "billing" :=
  c3_category_first_match "The crash caused a double charge" (by decide) (by decide)

/-- All keywords of all eleven labeler rules. -/
def allLabelKeywords : List String :=
  posWords ++ negWords ++ problemWords ++ mildPosWords ++ criticalWords ++
    highWords ++ mediumWords ++ technicalWords ++ billingWords ++
    shippingWords ++ productWords

/-- Claim C4: the labeler is total, and on any string containing none of
the listed keywords every rule falls through to the defaults: sentiment
`0.0`, urgency `low`, category `other`. -/
theorem c4_label_total_defaults (s : String)
    (h : ∀ kw ∈ allLabelKeywords, containsKw (upperChars s) kw = false) :
    label s =
      { sentiment_score := 0.0, urgency_level := "low", category_guess := "other" } := by
  have hany : ∀ kws : List String, (∀ kw ∈ kws, kw ∈ allLabelKeywords) →
      containsAny (upperChars s) kws = false := by
    intro kws hsub
    simp only [containsAny, List.any_eq_false]
    intro kw hkw
    simp [h kw (hsub kw hkw)]
  have hmem : ∀ kws : List String,
      (posWords = kws ∨ negWords = kws ∨ problemWords = kws ∨ mildPosWords = kws ∨
        criticalWords = kws ∨ highWords = kws ∨ mediumWords = kws ∨
        technicalWords = kws ∨ billingWords = kws ∨ shippingWords = kws ∨
        productWords = kws) →
      ∀ kw ∈ kws, kw ∈ allLabelKeywords := by
    intro kws hor kw hkw
    unfold allLabelKeywords
    simp only [List.mem_append]
    rcases hor with h1 | h1 | h1 | h1 | h1 | h1 | h1 | h1 | h1 | h1 | h1 <;>
      subst h1 <;> tauto
  have h1 := hany posWords (hmem _ (by tauto))
  have h2 := hany negWords (hmem _ (by tauto))
  have h3 := hany problemWords (hmem _ (by tauto))
  have h4 := hany mildPosWords (hmem _ (by tauto))
  have h5 := hany criticalWords (hmem _ (by tauto))
  have h6 := hany highWords (hmem _ (by tauto))
  have h7 := hany mediumWords (hmem _ (by tauto))
  have h8 := hany technicalWords (hmem _ (by tauto))
  have h9 := hany billingWords (hmem _ (by tauto))
  have h10 := hany shippingWords (hmem _ (by tauto))
  have h11 := hany productWords (hmem _ (by tauto))
  simp [label, sentimentScore, urgencyLevel, categoryGuess,
    h1, h2, h3, h4, h5, h6, h7, h8, h9, h10, h11]

/-- Witness for C4 at the empty string. -/
theorem c4_label_total_defaults_witness :
    label "" =
      { sentiment_score := 0.0, urgency_level := "low", category_guess := "other" } :=
  c4_label_total_defaults "" (by decide)

/-- Counterexample to C5 as stated: the claim asserts the customer number
is uniform on the inclusive range `[1, 50]`, but `np.random.randint(1, 50)`
has the half-open support `[1, 50)`: no draw can carry `custN = 50`. -/
theorem c5_customer_id_counterexample :
    50 ∈ Finset.Icc 1 50 ∧ ¬ ∃ d : ImplDraw, d.custN = 50 := by
  refine ⟨by decide, ?_⟩
  rintro ⟨d, hd⟩
  have := d.custN_hi
  omega

/-- Claim C5 (amended): every generated record's `customer_id` is
`"customer_" ++ pad3 n` for the drawn `n` with `1 ≤ n < 50` (the half-open
support of `randint(1, 50)`), and every `n` in `{1, ..., 49}` is attainable
by some draw. -/
theorem c5_customer_id_amended :
    (∀ (count now : ℤ) (ω : ℕ → ImplDraw) (i : ℕ)
      (hi : i < (implGenerate count now ω).length),
      ∃ n, 1 ≤ n ∧ n < 50 ∧
        ((implGenerate count now ω).get ⟨i, hi⟩).customer_id = "customer_" ++ pad3 n) ∧
    (∀ (count now : ℤ) (δ : ℕ → DemoDraw) (i : ℕ)
      (hi : i < (demoGenerate count now δ).length),
      ∃ n, 1 ≤ n ∧ n < 50 ∧
        ((demoGenerate count now δ).get ⟨i, hi⟩).customer_id = "customer_" ++ pad3 n) ∧
    (∀ n, 1 ≤ n → n < 50 → ∃ d : ImplDraw, ∀ (now : ℤ) (i : ℕ),
      (implRecord now i d).customer_id = "customer_" ++ pad3 n) := by
  refine ⟨?_, ?_, ?_⟩
  · intro count now ω i hi
    refine ⟨(ω i).custN, (ω i).custN_lo, (ω i).custN_hi, ?_⟩
    rw [implGenerate_get]
    rfl
  · intro count now δ i hi
    refine ⟨(δ i).custN, (δ i).custN_lo, (δ i).custN_hi, ?_⟩
    rw [demoGenerate_get]
    rfl
  · intro n h1 h2
    exact ⟨{ implDraw0 with custN := n, custN_lo := h1, custN_hi := h2 },
      fun now i => rfl⟩

/-- Witness for the amended C5 at `count = 1` with the fixed draw. -/
theorem c5_customer_id_amended_witness :
    ∃ n, 1 ≤ n ∧ n < 50 ∧
      ((implGenerate 1 0 (fun _ => implDraw0)).get ⟨0, by decide⟩).customer_id =
        "customer_" ++ pad3 n :=
  (c5_customer_id_amended).1 1 0 (fun _ => implDraw0) 0 (by decide)

/-- Counterexample to C6 as stated: the claim names a five-element marker
set including `emergency` for "the generator", but the demo variant's
`urgency_words` has only four entries and can never prepend `emergency`. -/
theorem c6_urgency_words_counterexample :
    "emergency" ∈ implUrgencyWords ∧ "emergency" ∉ demoUrgencyWords ∧
    implUrgencyWords.length = 5 ∧ demoUrgencyWords.length = 4 := by
  decide

/-- `implDraw0` with a forced urgency marker: `random()` result 0 (below
the 0.15 threshold) and marker index `u`. -/
def implDrawWithMarker (u : Fin implUrgencyWords.length) : ImplDraw :=
  { implDraw0 with
    urgRand := 0
    urgRand_nonneg := le_refl 0
    urgRand_lt_one := (by decide)
    urgIdx := u }

/-- Appending a delimiter-free prefix to a good text keeps it good. -/
theorem goodText_append (a b : List Char) (hb : goodText b = true)
    (ha : a.all (fun ch => ch != '{' && ch != '}') = true) :
    goodText (a ++ b) = true := by
  unfold goodText at hb ⊢
  rw [Bool.and_eq_true] at hb
  rw [List.all_append, Bool.and_eq_true, Bool.and_eq_true]
  refine ⟨?_, ha, hb.2⟩
  rcases b with _ | ⟨c, t⟩
  · simp at hb
  · rcases a with _ | ⟨c2, t2⟩ <;> rfl

/-- Claim C6 (amended): per record, independently, the implementation
variant prepends `w ++ ": "` for a marker `w` of its five-element
`urgency_words` exactly when that record's `random()` draw is below `0.15`
(`urgThreshold`), and otherwise leaves the text unchanged; each of the five
markers is attainable.  The demo variant behaves the same way but draws
from its four-element `urgency_words` (no `emergency`). -/
theorem c6_urgency_marker_amended :
    (∀ (count now : ℤ) (ω : ℕ → ImplDraw) (i : ℕ)
      (hi : i < (implGenerate count now ω).length),
      ((ω i).urgRand < urgThreshold →
        ∃ w ∈ implUrgencyWords,
          ((implGenerate count now ω).get ⟨i, hi⟩).raw_text =
            ⟨w.data ++ (": ").data ++ implBaseText (ω i)⟩) ∧
      (¬ (ω i).urgRand < urgThreshold →
        ((implGenerate count now ω).get ⟨i, hi⟩).raw_text = ⟨implBaseText (ω i)⟩)) ∧
    (∀ (count now : ℤ) (δ : ℕ → DemoDraw) (i : ℕ)
      (hi : i < (demoGenerate count now δ).length),
      ((δ i).urgRand < urgThreshold →
        ∃ w ∈ demoUrgencyWords,
          ((demoGenerate count now δ).get ⟨i, hi⟩).raw_text =
            ⟨w.data ++ (": ").data ++ ((demoPool (δ i).catIdx).get (δ i).tmplIdx).data⟩) ∧
      (¬ (δ i).urgRand < urgThreshold →
        ((demoGenerate count now δ).get ⟨i, hi⟩).raw_text =
          ⟨((demoPool (δ i).catIdx).get (δ i).tmplIdx).data⟩)) ∧
    (∀ w ∈ implUrgencyWords, ∃ d : ImplDraw, d.urgRand < urgThreshold ∧
      ∀ (now : ℤ) (i : ℕ),
        (implRecord now i d).raw_text = ⟨w.data ++ (": ").data ++ implBaseText d⟩) := by
  refine ⟨?_, ?_, ?_⟩
  · intro count now ω i hi
    rw [implGenerate_get]
    constructor
    · intro h
      refine ⟨implUrgencyWords.get (ω i).urgIdx, List.get_mem _ _ _, ?_⟩
      show String.mk (implRawText (ω i)) = _
      unfold implRawText
      rw [if_pos h]
    · intro h
      show String.mk (implRawText (ω i)) = _
      unfold implRawText
      rw [if_neg h]
  · intro count now δ i hi
    rw [demoGenerate_get]
    constructor
    · intro h
      refine ⟨demoUrgencyWords.get (δ i).urgIdx, List.get_mem _ _ _, ?_⟩
      show String.mk (demoRawText (δ i)) = _
      unfold demoRawText
      rw [if_pos h]
    · intro h
      show String.mk (demoRawText (δ i)) = _
      unfold demoRawText
      rw [if_neg h]
  · intro w hw
    obtain ⟨u, hu⟩ := List.mem_iff_get.mp hw
    have h0 : (implDrawWithMarker u).urgRand < urgThreshold := by
      show (0 : ℚ) < urgThreshold
      decide
    refine ⟨implDrawWithMarker u, h0, ?_⟩
    intro now i
    show String.mk (implRawText (implDrawWithMarker u)) = _
    unfold implRawText
    rw [if_pos h0]
    show String.mk ((implUrgencyWords.get u).data ++ (": ").data
        ++ implBaseText (implDrawWithMarker u)) =
      String.mk (w.data ++ (": ").data ++ implBaseText (implDrawWithMarker u))
    rw [hu]

/-- Witness for the amended C6: the marker `emergency` is attainable in the
implementation variant. -/
theorem c6_urgency_marker_amended_witness :
    ∃ d : ImplDraw, d.urgRand < urgThreshold ∧ ∀ (now : ℤ) (i : ℕ),
      (implRecord now i d).raw_text =
        ⟨("emergency").data ++ (": ").data ++ implBaseText d⟩ :=
  (c6_urgency_marker_amended).2.2 "emergency" (by decide)

/-- Counterexample to C7 as stated: the implementation variant's rows do
not carry a top-level `category` column; they carry `metadata` instead. -/
theorem c7_columns_counterexample :
    implColumns ≠ specColumns ∧ "category" ∉ implColumns ∧
    "metadata" ∈ implColumns := by
  decide

/-- Claim C7 (amended): the demo variant's rows carry exactly the claimed
columns (with top-level `category` holding the ground-truth template key);
the implementation variant's rows carry `metadata` in place of `category`,
with the ground-truth key nested inside `metadata`; in both variants every
row has `channel` in the five-channel set and `processed = false`. -/
theorem c7_columns_amended :
    demoColumns = specColumns ∧
    implColumns =
      ["feedback_id", "customer_id", "channel", "timestamp", "raw_text",
        "metadata", "processed"] ∧
    (∀ (count now : ℤ) (ω : ℕ → ImplDraw) (i : ℕ)
      (hi : i < (implGenerate count now ω).length),
      ((implGenerate count now ω).get ⟨i, hi⟩).channel ∈ channels ∧
      ((implGenerate count now ω).get ⟨i, hi⟩).processed = false ∧
      ((implGenerate count now ω).get ⟨i, hi⟩).metadata.category ∈
        ["technical", "billing", "product", "shipping"]) ∧
    (∀ (count now : ℤ) (δ : ℕ → DemoDraw) (i : ℕ)
      (hi : i < (demoGenerate count now δ).length),
      ((demoGenerate count now δ).get ⟨i, hi⟩).channel ∈ channels ∧
      ((demoGenerate count now δ).get ⟨i, hi⟩).processed = false ∧
      ((demoGenerate count now δ).get ⟨i, hi⟩).category ∈
        ["technical", "billing", "product", "shipping"]) := by
  have hcat : ∀ c : Fin 4, catKey c ∈ ["technical", "billing", "product", "shipping"] := by
    decide
  refine ⟨rfl, rfl, ?_, ?_⟩
  · intro count now ω i hi
    rw [implGenerate_get]
    exact ⟨List.get_mem _ _ _, rfl, hcat _⟩
  · intro count now δ i hi
    rw [demoGenerate_get]
    exact ⟨List.get_mem _ _ _, rfl, hcat _⟩

/-- Witness for the amended C7 at `count = 1` with the fixed draws. -/
theorem c7_columns_amended_witness :
    ((demoGenerate 1 0 (fun _ => demoDraw0)).get ⟨0, by decide⟩).channel ∈ channels ∧
    ((demoGenerate 1 0 (fun _ => demoDraw0)).get ⟨0, by decide⟩).processed = false ∧
    ((demoGenerate 1 0 (fun _ => demoDraw0)).get ⟨0, by decide⟩).category ∈
      ["technical", "billing", "product", "shipping"] :=
  (c7_columns_amended).2.2.2 1 0 (fun _ => demoDraw0) 0 (by decide)

/-- The timestamps the demo variant can produce for a given `now` (hours):
whole multiples of 24 hours, 0 to 29 days back. -/
def demoTsSupport (now : ℤ) : Finset ℤ :=
  (Finset.range 30).image (fun d : ℕ => now - 24 * (d : ℤ))

/-- Counterexample to C8 as stated: with `now = 0`, the value `-1` (day
offset 0, hour offset 1) is of the claimed form, but no demo-variant record
can have that timestamp: the demo generator draws no hour offset. -/
theorem c8_timestamp_counterexample :
    ((0 : ℤ) - (24 * 0 + 1) = -1) ∧
    ¬ ∃ d : DemoDraw, (demoRecord 0 0 d).timestamp = -1 := by
  refine ⟨by decide, ?_⟩
  rintro ⟨d, hd⟩
  simp only [demoRecord] at hd
  omega

/-- Claim C8 (amended): an implementation-variant record's timestamp is
`now - (24·day + hour)` hours with `day ∈ [0,30)` and `hour ∈ [0,24)` as
drawn; a demo-variant record's timestamp is `now - 24·day` only (no hour
draw), i.e. lies in `demoTsSupport now`; in both variants the timestamp
falls within the 30 days (720 hours) preceding `now`. -/
theorem c8_timestamp_amended :
    (∀ (count now : ℤ) (ω : ℕ → ImplDraw) (i : ℕ)
      (hi : i < (implGenerate count now ω).length),
      ∃ d h : ℕ, d < 30 ∧ h < 24 ∧
        ((implGenerate count now ω).get ⟨i, hi⟩).timestamp =
          now - (24 * (d : ℤ) + (h : ℤ)) ∧
        now - 720 < ((implGenerate count now ω).get ⟨i, hi⟩).timestamp ∧
        ((implGenerate count now ω).get ⟨i, hi⟩).timestamp ≤ now) ∧
    (∀ (count now : ℤ) (δ : ℕ → DemoDraw) (i : ℕ)
      (hi : i < (demoGenerate count now δ).length),
      ((demoGenerate count now δ).get ⟨i, hi⟩).timestamp ∈ demoTsSupport now ∧
      now - 720 < ((demoGenerate count now δ).get ⟨i, hi⟩).timestamp ∧
      ((demoGenerate count now δ).get ⟨i, hi⟩).timestamp ≤ now) := by
  constructor
  · intro count now ω i hi
    rw [implGenerate_get]
    have hd := (ω i).dayN_hi
    have hh := (ω i).hourN_hi
    refine ⟨(ω i).dayN, (ω i).hourN, hd, hh, rfl, ?_, ?_⟩
    · show now - 720 < now - (24 * ((ω i).dayN : ℤ) + ((ω i).hourN : ℤ))
      omega
    · show now - (24 * ((ω i).dayN : ℤ) + ((ω i).hourN : ℤ)) ≤ now
      omega
  · intro count now δ i hi
    rw [demoGenerate_get]
    have hd := (δ i).dayN_hi
    refine ⟨?_, ?_, ?_⟩
    · show now - 24 * ((δ i).dayN : ℤ) ∈ demoTsSupport now
      unfold demoTsSupport
      rw [Finset.mem_image]
      exact ⟨(δ i).dayN, Finset.mem_range.mpr hd, rfl⟩
    · show now - 720 < now - 24 * ((δ i).dayN : ℤ)
      omega
    · show now - 24 * ((δ i).dayN : ℤ) ≤ now
      omega

/-- Witness for the amended C8 at `count = 1` with the fixed demo draw. -/
theorem c8_timestamp_amended_witness :
    ((demoGenerate 1 0 (fun _ => demoDraw0)).get ⟨0, by decide⟩).timestamp ∈
      demoTsSupport 0 ∧
    (0 : ℤ) - 720 <
      ((demoGenerate 1 0 (fun _ => demoDraw0)).get ⟨0, by decide⟩).timestamp ∧
    ((demoGenerate 1 0 (fun _ => demoDraw0)).get ⟨0, by decide⟩).timestamp ≤ 0 :=
  (c8_timestamp_amended).2 1 0 (fun _ => demoDraw0) 0 (by decide)

/-- Each urgency marker of the implementation variant followed by `": "`
contains neither placeholder delimiter. -/
theorem implMarkerChars_ok :
    ∀ u : Fin implUrgencyWords.length,
      ((implUrgencyWords.get u).data ++ (": ").data).all
        (fun ch => ch != '{' && ch != '}') = true := by
  decide

/-- Claim C9: every implementation-variant record's `raw_text` has every
placeholder occurrence substituted: it contains no `\x7b` or `\x7d`
character and is non-empty. -/
theorem c9_no_placeholders (count now : ℤ) (ω : ℕ → ImplDraw) (i : ℕ)
    (hi : i < (implGenerate count now ω).length) :
    goodText (((implGenerate count now ω).get ⟨i, hi⟩).raw_text.data) = true := by
  rw [implGenerate_get]
  show goodText (implRawText (ω i)) = true
  have hbase : goodText (implBaseText (ω i)) = true :=
    pySubst_goodText (ω i).catIdx (ω i).tmplIdx (ω i).actIdx (ω i).featIdx
      (ω i).suggIdx
  unfold implRawText
  by_cases h : (ω i).urgRand < urgThreshold
  · rw [if_pos h]
    exact goodText_append _ _ hbase (implMarkerChars_ok (ω i).urgIdx)
  · rw [if_neg h]
    exact hbase

/-- Witness for C9 at `count = 1` with the fixed draw. -/
theorem c9_no_placeholders_witness :
    goodText (((implGenerate 1 0 (fun _ => implDraw0)).get
      ⟨0, by decide⟩).raw_text.data) = true :=
  c9_no_placeholders 1 0 (fun _ => implDraw0) 0 (by decide)

/-- Claim C10: a negative `count` is not rejected: the loop body runs zero
times and both generators return the empty list, the same output as
`count = 0`. -/
theorem c10_negative_count (count now : ℤ) (hneg : count < 0)
    (ω : ℕ → ImplDraw) (δ : ℕ → DemoDraw) :
    implGenerate count now ω = [] ∧
    implGenerate count now ω = implGenerate 0 now ω ∧
    demoGenerate count now δ = [] ∧
    demoGenerate count now δ = demoGenerate 0 now δ := by
  have h : count.toNat = 0 := Int.toNat_eq_zero.mpr (le_of_lt hneg)
  refine ⟨?_, ?_, ?_, ?_⟩ <;> simp [implGenerate, demoGenerate, h]

/-- Witness for C10 at `count = -5`. -/
theorem c10_negative_count_witness :
    implGenerate (-5) 0 (fun _ => implDraw0) = [] ∧
    demoGenerate (-5) 0 (fun _ => demoDraw0) = [] := by
  have h := c10_negative_count (-5) 0 (by decide)
    (fun _ => implDraw0) (fun _ => demoDraw0)
  exact ⟨h.1, h.2.2.1⟩

end InsightEngine
